import Mathlib

/-!
Verification of the MetHAL client (src/index.js): the `buildQuery` descriptor
compiler, the `query`/`findOne` option handling and result unwrapping, and the
`ApiHalStream` cursor-paginated stream.

JavaScript values appearing in search descriptors and option objects are
modelled by the inductive type `JVal`.  Numbers are modelled as integers
(the repository only ever renders them with `toString`, and integer rendering
agrees with JavaScript's).  Object key iteration order is the order of the
association list carried by the `obj` constructor, mirroring the `for..in`
iteration order of the source.  Exceptions are modelled with `Except`.
-/

inductive JVal where
  | str (s : String)
  | num (n : Int)
  | bool (b : Bool)
  | null
  | undef
  | arr (xs : List JVal)
  | obj (kvs : List (String × JVal))

/-- JavaScript truthiness of a value (`if (v)`), as used by the source for
strings, option values and response fields. -/
def truthy : JVal → Bool
  | JVal.str s => s != ""
  | JVal.num n => n != 0
  | JVal.bool b => b
  | JVal.null => false
  | JVal.undef => false
  | JVal.arr _ => true
  | JVal.obj _ => true

mutual

/-- JavaScript `String(v)` for the values of `JVal`, as produced by
`v.toString()` on a non-null value: used by `buildQuery`'s default branch
(src/index.js line 42) and by `Array.prototype.join` (line 148). -/
def jStrCore : JVal → String
  | JVal.str s => s
  | JVal.num n => toString n
  | JVal.bool b => cond b "true" "false"
  | JVal.null => "null"
  | JVal.undef => "undefined"
  | JVal.arr xs => joinElems xs
  | JVal.obj _ => "[object Object]"

/-- JavaScript `Array.prototype.join(",")` (also `Array.prototype.toString`):
null and undefined elements render as the empty string. -/
def joinElems : List JVal → String
  | [] => ""
  | x :: rest =>
      let s :=
        match x with
        | JVal.null => ""
        | JVal.undef => ""
        | v => jStrCore v
      match rest with
      | [] => s
      | _ => s ++ "," ++ joinElems rest

end

/-- JavaScript `v.toString()`: throws a TypeError when `v` is null or
undefined, otherwise coerces (src/index.js line 42 calls this on every
non-operator field value). -/
def jToString : JVal → Except String String
  | JVal.null => Except.error "TypeError: cannot read toString of null"
  | JVal.undef => Except.error "TypeError: cannot read toString of undefined"
  | v => Except.ok (jStrCore v)

/-- Lines 47-58 of src/index.js: combine the collected `parts` and the
optional `negation` clause with the ambient operator. -/
def combineParts (parts : List String) (negation : Option String) (operator : String) : String :=
  if parts.length = 0 then
    negation.getD ""
  else if 1 < parts.length ∨ negation.isSome then
    (match negation with
     | some n => n ++ " " ++ operator ++ " ("
     | none => "(")
      ++ String.intercalate (") " ++ operator ++ " (") parts ++ ")"
  else
    parts.headD ""

/-- `for..in` over a JavaScript string enumerates its indices; the default
branch of the `switch` then produces one `index:char` term per character. -/
def strTerms (s : String) : List String :=
  s.toList.enum.map (fun p => toString p.1 ++ ":" ++ String.singleton p.2)

/-- Line 14 of src/index.js: `operator = operator || 'AND'`. -/
def defaultOp (op : String) : String := if op = "" then "AND" else op

mutual

/-- The query compiler `buildQuery` of src/index.js lines 12-59.  An array
compiles each element with inner operator `AND` and keeps the non-empty
results; an object dispatches on each key (`$or`, `$and`, `$not`, or a field
term via `toString`); other values have no enumerable keys (a string
enumerates its indices) and `search || {}` sends falsy values to the empty
object, so they compile like an object with the corresponding entries. -/
def buildQuery : JVal → String → Except String String
  | JVal.arr xs, op =>
      match buildArrParts xs with
      | Except.error e => Except.error e
      | Except.ok parts => Except.ok (combineParts parts none (defaultOp op))
  | JVal.obj kvs, op =>
      match buildObjParts kvs with
      | Except.error e => Except.error e
      | Except.ok pn => Except.ok (combineParts pn.1 pn.2 (defaultOp op))
  | JVal.str s, op => Except.ok (combineParts (strTerms s) none (defaultOp op))
  | JVal.num _, _ => Except.ok ""
  | JVal.bool _, _ => Except.ok ""
  | JVal.null, _ => Except.ok ""
  | JVal.undef, _ => Except.ok ""

/-- Lines 19-23: `search.forEach(...)` — compile each array element with
inner operator `AND`, keeping the truthy (non-empty) results. -/
def buildArrParts : List JVal → Except String (List String)
  | [] => Except.ok []
  | x :: rest =>
      match buildQuery x "AND", buildArrParts rest with
      | Except.error e, _ => Except.error e
      | Except.ok _, Except.error e => Except.error e
      | Except.ok part, Except.ok more => Except.ok (if part = "" then more else part :: more)

/-- Lines 27-44: the `for (const p in search)` loop.  Returns the collected
`parts` together with the final `negation` clause; a later `$not` key with a
non-empty subquery overwrites an earlier one (`Option.or r.2 c.2`). -/
def buildObjParts : List (String × JVal) → Except String (List String × Option String)
  | [] => Except.ok ([], none)
  | (k, v) :: rest =>
      let c :=
        if k = "$or" then
          match buildQuery v "OR" with
          | Except.error e => Except.error e
          | Except.ok sub =>
              Except.ok ((if sub = "" then [] else [sub]), (none : Option String))
        else if k = "$and" then
          match buildQuery v "AND" with
          | Except.error e => Except.error e
          | Except.ok sub =>
              Except.ok ((if sub = "" then [] else [sub]), (none : Option String))
        else if k = "$not" then
          match buildQuery v "OR" with
          | Except.error e => Except.error e
          | Except.ok sub =>
              Except.ok (([] : List String),
                if sub = "" then (none : Option String)
                else some ("NOT(" ++ sub ++ ")"))
        else
          match jToString v with
          | Except.error e => Except.error e
          | Except.ok s => Except.ok ([k ++ ":" ++ s], (none : Option String))
      match c, buildObjParts rest with
      | Except.error e, _ => Except.error e
      | Except.ok _, Except.error e => Except.error e
      | Except.ok c, Except.ok r => Except.ok (c.1 ++ r.1, Option.or r.2 c.2)

end

/-- The contribution of a single object entry to `parts` and `negation`:
the body of one iteration of the `for..in` loop (lines 28-43).  `buildObjParts`
processes entries left to right with exactly this step (`buildObjParts_cons`
below). -/
def entryContrib (k : String) (v : JVal) : Except String (List String × Option String) :=
  if k = "$or" then
    match buildQuery v "OR" with
    | Except.error e => Except.error e
    | Except.ok sub =>
        Except.ok ((if sub = "" then [] else [sub]), (none : Option String))
  else if k = "$and" then
    match buildQuery v "AND" with
    | Except.error e => Except.error e
    | Except.ok sub =>
        Except.ok ((if sub = "" then [] else [sub]), (none : Option String))
  else if k = "$not" then
    match buildQuery v "OR" with
    | Except.error e => Except.error e
    | Except.ok sub =>
        Except.ok (([] : List String),
          if sub = "" then (none : Option String)
          else some ("NOT(" ++ sub ++ ")"))
  else
    match jToString v with
    | Except.error e => Except.error e
    | Except.ok s => Except.ok ([k ++ ":" ++ s], (none : Option String))

/-- Error-propagating sequencing of two `Except` computations, used to state
unfolding lemmas for the compiler. -/
def exSeq (x : Except String α) (f : α → Except String β) : Except String β :=
  match x with
  | Except.error e => Except.error e
  | Except.ok a => f a

/-- Line 124 of src/index.js: a string search is used verbatim as the query;
otherwise the compiled descriptor is used, with the universal wildcard
substituted when the compiled result is empty
(`buildQuery(search, 'AND') || '*:*'`). -/
def queryOf (search : JVal) : Except String String :=
  match search with
  | JVal.str s => Except.ok s
  | s =>
      match buildQuery s "AND" with
      | Except.error e => Except.error e
      | Except.ok q => Except.ok (if q = "" then "*:*" else q)

/-- An options object, as a key/value association list in property order. -/
abbrev OptMap := List (String × JVal)

/-- Property read `o[k]` on an options object. -/
def getOpt : OptMap → String → Option JVal
  | [], _ => none
  | (k', v) :: rest, k => if k' = k then some v else getOpt rest k

/-- Property write `o[k] = v`: replaces the value of an existing key in
place, otherwise appends the new key at the end (JavaScript property order). -/
def setOpt : OptMap → String → JVal → OptMap
  | [], k, v => [(k, v)]
  | (k', v') :: rest, k, v =>
      if k' = k then (k, v) :: rest else (k', v') :: setOpt rest k v

/-- Property deletion `delete o[k]`. -/
def delOpt : OptMap → String → OptMap
  | [], _ => []
  | (k', v') :: rest, k =>
      if k' = k then delOpt rest k else (k', v') :: delOpt rest k

/-- Line 97 of src/index.js: `findOne` forces `options.rows = 1` on the
caller's options object before delegating to `query`. -/
def findOnePrepOptions (o : OptMap) : OptMap := setOpt o "rows" (JVal.num 1)

/-- Lines 126-149 of src/index.js: `query`'s destructive option
normalization.  The `proxy` key (when present) is moved out of the options
into the request options; a truthy `fields` value is renamed to `fl`; an
array-valued `fl` is joined into a comma-separated string.  Returns the
mutated options object together with the extracted proxy value. -/
def queryPrepOptions (o : OptMap) : OptMap × Option JVal :=
  let px := getOpt o "proxy"
  let o1 := if px.isSome then delOpt o "proxy" else o
  let o2 :=
    match getOpt o1 "fields" with
    | some v => if truthy v then delOpt (setOpt o1 "fl" v) "fields" else o1
    | none => o1
  let o3 :=
    match getOpt o2 "fl" with
    | some (JVal.arr xs) => setOpt o2 "fl" (JVal.str (joinElems xs))
    | _ => o2
  (o3, px)

/-- Lines 178-181 of src/index.js: the `ApiHalStream` constructor stores the
caller's options object as `this.params` and unconditionally overwrites its
`sort`, `cursorMark` and `rows` properties. -/
def streamParams (o : OptMap) : OptMap :=
  setOpt (setOpt (setOpt o "sort" (JVal.str "docid asc")) "cursorMark" (JVal.str "*"))
    "rows" (JVal.num 1000)

/-- Property read `v[k]` on a response value: a missing key, or a receiver
with no properties, yields `undefined`. -/
def getProp (v : JVal) (k : String) : JVal :=
  match v with
  | JVal.obj kvs => (((kvs.find? (fun kv => kv.1 == k)).map Prod.snd).getD JVal.undef)
  | _ => JVal.undef

/-- Lines 99-107 of src/index.js: `findOne`'s handling of a successful
`query` result.  It succeeds with `result.response.docs[0]` exactly when
`result.response` is truthy, `result.response.docs` is an array, and that
array has exactly one element; every other shape is reported as an error. -/
def findOneHandle (result : JVal) : Except String JVal :=
  if truthy (getProp result "response") then
    match getProp (getProp result "response") "docs" with
    | JVal.arr docs =>
        if docs.length = 1 then Except.ok (docs.headD JVal.undef)
        else Except.error "unexpected result, documents not found"
    | _ => Except.error "unexpected result, documents not found"
  else Except.error "unexpected result, documents not found"

/-- One page returned by the backend: the documents (modelled by opaque
numeric identifiers), the total match count `numFound`, and the next cursor
token. -/
structure PageResp where
  docs : List Nat
  numFound : Nat
  nextCursorMark : String

/-- The outcome of one page fetch: a page, or a transport failure. -/
abbrev FetchResult := Except String PageResp

/-- The mutable per-instance state of `ApiHalStream`: the `reading` guard,
the running `counter` of emitted documents, and the current cursor token. -/
structure StreamState where
  reading : Bool
  counter : Nat
  cursorMark : String

/-- How one `_read` invocation ends: `noop` (guard hit, nothing done),
`pending` (a fetch was issued but its response has not arrived yet),
`done` (`push(null)` was reached), or `errored` (a fetch failed and
`error` was emitted). -/
inductive RunResult where
  | noop
  | pending
  | done
  | errored (e : String)

/-- The observable trace of one `_read` invocation: how many page fetches
were issued, the documents pushed downstream in order, the value of
`counter` after each completed page, the final outcome, and the final
state. -/
structure Trace where
  fetches : Nat
  pushed : List Nat
  counters : List Nat
  result : RunResult
  final : StreamState

/-- Lines 188-206 of src/index.js: the `getMoreUntilDone` loop, driven by a
script of backend responses (one per issued fetch; an exhausted script means
the last request is still in flight).  Each call issues one fetch.  On a
page, every document is pushed and counted; if the counter is still below
`numFound` the cursor advances and the next fetch is issued immediately,
otherwise `push(null)` ends the stream, the counter is reset and the guard
released.  On failure an error is emitted and the state is left as is. -/
def getMoreUntilDone : StreamState → List FetchResult → Trace
  | st, [] =>
      { fetches := 1, pushed := [], counters := [], result := RunResult.pending, final := st }
  | st, Except.error e :: _ =>
      { fetches := 1, pushed := [], counters := [], result := RunResult.errored e, final := st }
  | st, Except.ok resp :: rest =>
      let c := st.counter + resp.docs.length
      if c < resp.numFound then
        let t := getMoreUntilDone { st with counter := c, cursorMark := resp.nextCursorMark } rest
        { fetches := t.fetches + 1, pushed := resp.docs ++ t.pushed,
          counters := c :: t.counters, result := t.result, final := t.final }
      else
        { fetches := 1, pushed := resp.docs, counters := [c], result := RunResult.done,
          final := { st with counter := 0, reading := false } }

/-- Lines 184-208 of src/index.js: `_read` — a consumer pull.  If a scroll is
already in progress (`this.reading`) the pull is a no-op; otherwise the guard
is taken and the fetch loop starts. -/
def streamRead (st : StreamState) (backend : List FetchResult) : Trace :=
  if st.reading then
    { fetches := 0, pushed := [], counters := [], result := RunResult.noop, final := st }
  else getMoreUntilDone { st with reading := true } backend

/-- The state installed by the `ApiHalStream` constructor:
`reading = false`, `counter = 0`, `cursorMark = '*'`. -/
def initStream : StreamState := { reading := false, counter := 0, cursorMark := "*" }

/-- A backend reporting `numFound = 2500` with page size 1000: three pages of
1000, 1000 and 500 documents. -/
def backend2500 : List FetchResult :=
  [Except.ok { docs := List.range 1000, numFound := 2500, nextCursorMark := "cm1" },
   Except.ok { docs := List.range' 1000 1000, numFound := 2500, nextCursorMark := "cm2" },
   Except.ok { docs := List.range' 2000 500, numFound := 2500, nextCursorMark := "cm3" }]

/-- A backend reporting `numFound = 0`: the first page is empty. -/
def backend0 : List FetchResult :=
  [Except.ok { docs := [], numFound := 0, nextCursorMark := "cm" }]

/-- A backend whose second page fetch fails, with a third page available
behind it (it must never be requested). -/
def backendMidFail : List FetchResult :=
  [Except.ok { docs := List.range 1000, numFound := 2500, nextCursorMark := "cm1" },
   Except.error "ECONNRESET",
   Except.ok { docs := List.range' 2000 500, numFound := 2500, nextCursorMark := "cm3" }]

theorem exSeq_error {α β : Type} (e : String) (f : α → Except String β) :
    exSeq (Except.error e) f = Except.error e := rfl

theorem exSeq_ok {α β : Type} (a : α) (f : α → Except String β) :
    exSeq (Except.ok a) f = f a := rfl

theorem buildQuery_obj (kvs : List (String × JVal)) (op : String) :
    buildQuery (JVal.obj kvs) op =
      exSeq (buildObjParts kvs) (fun pn =>
        Except.ok (combineParts pn.1 pn.2 (defaultOp op))) := by
  show (match buildObjParts kvs with
        | Except.error e => Except.error e
        | Except.ok pn => Except.ok (combineParts pn.1 pn.2 (defaultOp op))) = _
  cases buildObjParts kvs <;> rfl

theorem buildObjParts_cons (k : String) (v : JVal) (rest : List (String × JVal)) :
    buildObjParts ((k, v) :: rest) =
      exSeq (entryContrib k v) (fun c =>
        exSeq (buildObjParts rest) (fun r =>
          Except.ok (c.1 ++ r.1, Option.or r.2 c.2))) := by
  show (match entryContrib k v, buildObjParts rest with
        | Except.error e, _ => Except.error e
        | Except.ok _, Except.error e => Except.error e
        | Except.ok c, Except.ok r => Except.ok (c.1 ++ r.1, Option.or r.2 c.2)) = _
  cases entryContrib k v <;> cases buildObjParts rest <;> rfl

/-- C4: compile({}) is the empty string; compile({a: 1}) is the unwrapped
single term a:1; compile({a: 1, b: 2}) is (a:1) AND (b:2); and the query
operation substitutes the universal match-all term *:* whenever the
top-level compiled result is empty. -/
theorem C4_compile_basic :
    buildQuery (JVal.obj []) "AND" = Except.ok "" ∧
    buildQuery (JVal.obj [("a", JVal.num 1)]) "AND" = Except.ok "a:1" ∧
    buildQuery (JVal.obj [("a", JVal.num 1), ("b", JVal.num 2)]) "AND"
      = Except.ok "(a:1) AND (b:2)" ∧
    (∀ v : JVal, (∀ s, v ≠ JVal.str s) → buildQuery v "AND" = Except.ok "" →
      queryOf v = Except.ok "*:*") := by
  refine ⟨rfl, rfl, rfl, ?_⟩
  intro v hns hq
  cases v with
  | str s => exact absurd rfl (hns s)
  | num n => simp [queryOf, hq] at hq ⊢
  | bool b => simp [queryOf, hq] at hq ⊢
  | null => simp [queryOf, hq] at hq ⊢
  | undef => simp [queryOf, hq] at hq ⊢
  | arr xs => simp [queryOf, hq]
  | obj kvs => simp [queryOf, hq]

/-- C4 witness: the empty descriptor compiles to the empty string and the
query operation substitutes the match-all term. -/
theorem C4_compile_basic_witness :
    queryOf (JVal.obj []) = Except.ok "*:*" :=
  C4_compile_basic.2.2.2 (JVal.obj []) (fun _ h => nomatch h) rfl

/-- C5: compile({$or: [{a: 1}, {b: 2}]}) is (a:1) OR (b:2); compile({$not:
{a: 1}}) is NOT(a:1); and compile({$not: {a: 1}, b: 2}) is NOT(a:1) AND
(b:2), the negation clause kept distinct and prefixed before the
parenthesized parts. -/
theorem C5_compile_operators :
    buildQuery (JVal.obj [("$or",
        JVal.arr [JVal.obj [("a", JVal.num 1)], JVal.obj [("b", JVal.num 2)]])]) "AND"
      = Except.ok "(a:1) OR (b:2)" ∧
    buildQuery (JVal.obj [("$not", JVal.obj [("a", JVal.num 1)])]) "AND"
      = Except.ok "NOT(a:1)" ∧
    buildQuery (JVal.obj [("$not", JVal.obj [("a", JVal.num 1)]), ("b", JVal.num 2)]) "AND"
      = Except.ok "NOT(a:1) AND (b:2)" :=
  ⟨rfl, rfl, rfl⟩

/-- C1 counterexample: a descriptor whose field value is a plain object (a
value that cannot be meaningfully rendered as a term) does NOT make the
compiler raise a descriptor-format error — the compiler succeeds, silently
coercing the value into the output string. -/
theorem C1_counterexample :
    ¬ ∃ e, buildQuery (JVal.obj [("a", JVal.obj [])]) "AND" = Except.error e := by
  intro h
  obtain ⟨e, h⟩ := h
  rw [show buildQuery (JVal.obj [("a", JVal.obj [])]) "AND"
        = Except.ok "a:[object Object]" from rfl] at h
  cases h

/-- C1 amended: a null or undefined field value makes the compiler throw a
TypeError synchronously (the value has no toString); but any
toString-bearing value — in particular a plain object — is silently coerced
into the output string (a plain object renders as a:[object Object]) rather
than rejected. -/
theorem C1_null_throws_object_coerced :
    (∀ (k : String) (rest : List (String × JVal)) (op : String),
      k ≠ "$or" → k ≠ "$and" → k ≠ "$not" →
      buildQuery (JVal.obj ((k, JVal.null) :: rest)) op
        = Except.error "TypeError: cannot read toString of null" ∧
      buildQuery (JVal.obj ((k, JVal.undef) :: rest)) op
        = Except.error "TypeError: cannot read toString of undefined") ∧
    buildQuery (JVal.obj [("a", JVal.obj [])]) "AND" = Except.ok "a:[object Object]" := by
  refine ⟨?_, rfl⟩
  intro k rest op h1 h2 h3
  constructor
  · have hc : entryContrib k JVal.null
        = Except.error "TypeError: cannot read toString of null" := by
      unfold entryContrib
      simp [h1, h2, h3, jToString]
    rw [buildQuery_obj, buildObjParts_cons, hc, exSeq_error, exSeq_error]
  · have hc : entryContrib k JVal.undef
        = Except.error "TypeError: cannot read toString of undefined" := by
      unfold entryContrib
      simp [h1, h2, h3, jToString]
    rw [buildQuery_obj, buildObjParts_cons, hc, exSeq_error, exSeq_error]

/-- C1 witness: a null-valued ordinary field makes the compiler throw. -/
theorem C1_null_throws_object_coerced_witness :
    buildQuery (JVal.obj [("x", JVal.null)]) "AND"
      = Except.error "TypeError: cannot read toString of null" ∧
    buildQuery (JVal.obj [("x", JVal.undef)]) "AND"
      = Except.error "TypeError: cannot read toString of undefined" :=
  C1_null_throws_object_coerced.1 "x" [] "AND" (by decide) (by decide) (by decide)


theorem getMore_fetches_le (backend : List FetchResult) (st : StreamState) :
    (getMoreUntilDone st backend).fetches ≤ backend.length + 1 := by
  induction backend generalizing st with
  | nil => simp [getMoreUntilDone]
  | cons hd tl ih =>
      cases hd with
      | error e => simp [getMoreUntilDone]
      | ok resp =>
          simp only [getMoreUntilDone, List.length_cons]
          split
          · dsimp only
            have h := ih { st with counter := st.counter + resp.docs.length, cursorMark := resp.nextCursorMark }
            omega
          · dsimp only
            omega

theorem getMore_pending (backend : List FetchResult) (st : StreamState) :
    (getMoreUntilDone st backend).result = RunResult.pending →
    (getMoreUntilDone st backend).fetches = backend.length + 1 := by
  induction backend generalizing st with
  | nil => intro _; simp [getMoreUntilDone]
  | cons hd tl ih =>
      cases hd with
      | error e => intro h; simp [getMoreUntilDone] at h
      | ok resp =>
          intro h
          simp only [getMoreUntilDone, List.length_cons] at h ⊢
          by_cases hc : st.counter + resp.docs.length < resp.numFound
          · simp only [if_pos hc] at h ⊢
            have h2 := ih { st with counter := st.counter + resp.docs.length, cursorMark := resp.nextCursorMark } h
            omega
          · simp only [if_neg hc] at h
            exact absurd h (by simp)

/-- C2 counterexample: the claim says pagination is pull-driven — each page
fetch after the first is issued only in response to a further consumer pull,
so one pull can trigger at most one page fetch.  On the code a single pull
of a fresh stream against a 3-page backend issues 3 fetches. -/
theorem C2_counterexample :
    ¬ ∀ (st : StreamState) (backend : List FetchResult),
        (streamRead st backend).fetches ≤ 1 := by
  intro h
  have h3 := h initStream backend2500
  have he : (streamRead initStream backend2500).fetches = 3 := by
    simp [streamRead, initStream, backend2500, getMoreUntilDone,
      List.length_range, List.length_range']
  rw [he] at h3
  omega

/-- C2 amended: a single consumer pull triggers the entire scroll — after a
page's documents are made available the producer immediately issues the next
page fetch without waiting for another pull (3 fetches from one pull on a
3-page backend), and the loop only ever stops mid-scroll because a request
is in flight: whenever the outcome is `pending`, every scripted response was
already consumed and one further fetch was issued.  A consumer that stops
pulling does not halt progress. -/
theorem C2_one_pull_fetches_all :
    (streamRead initStream backend2500).fetches = 3 ∧
    (∀ (st : StreamState) (backend : List FetchResult),
      (getMoreUntilDone st backend).result = RunResult.pending →
      (getMoreUntilDone st backend).fetches = backend.length + 1) := by
  constructor
  · simp [streamRead, initStream, backend2500, getMoreUntilDone,
      List.length_range, List.length_range']
  · intro st backend
    exact getMore_pending backend st

/-- C2 witness: with no scripted response at all, the loop has issued its
one in-flight fetch and is pending. -/
theorem C2_one_pull_fetches_all_witness :
    (getMoreUntilDone initStream ([] : List FetchResult)).fetches = 1 :=
  C2_one_pull_fetches_all.2 initStream [] rfl

/-- C3: against a backend reporting numFound = 2500 with rows = 1000, one
pull fully drains the stream: exactly 3 page fetches, exactly 2500 documents
emitted, the emitted-count strictly increasing through 1000, 2000, 2500,
then end-of-data; against numFound = 0 the single empty page immediately
yields end-of-data with no further fetches. -/
theorem C3_drain_counts :
    (streamRead initStream backend2500).fetches = 3 ∧
    (streamRead initStream backend2500).pushed.length = 2500 ∧
    (streamRead initStream backend2500).counters = [1000, 2000, 2500] ∧
    List.Chain' (· < ·) (streamRead initStream backend2500).counters ∧
    (streamRead initStream backend2500).result = RunResult.done ∧
    (streamRead initStream backend0).fetches = 1 ∧
    (streamRead initStream backend0).pushed = [] ∧
    (streamRead initStream backend0).result = RunResult.done := by
  refine ⟨?_, ?_, ?_, ?_, ?_, ?_, ?_, ?_⟩ <;>
    simp [streamRead, initStream, backend2500, backend0, getMoreUntilDone,
      List.length_range, List.length_range', List.chain'_cons, List.chain'_singleton]

/-- C6: a failed page fetch emits an error and stops — in general the loop
hands back exactly one fetch, no pushed documents and an untouched state
(so the emitted-count is not reset); concretely, when page 2 of 3 fails,
exactly the 1000 documents of page 1 were emitted, the error is signaled, no
third fetch is issued (fetches = 2 though a third response was scripted),
and the counter stays at 1000. -/
theorem C6_mid_scroll_failure :
    (∀ (st : StreamState) (e : String) (rest : List FetchResult),
      getMoreUntilDone st (Except.error e :: rest)
        = { fetches := 1, pushed := [], counters := [], result := RunResult.errored e,
            final := st }) ∧
    (streamRead initStream backendMidFail).fetches = 2 ∧
    (streamRead initStream backendMidFail).pushed = List.range 1000 ∧
    (streamRead initStream backendMidFail).result = RunResult.errored "ECONNRESET" ∧
    (streamRead initStream backendMidFail).final.counter = 1000 ∧
    backendMidFail.length = 3 := by
  refine ⟨fun st e rest => rfl, ?_, ?_, ?_, ?_, rfl⟩ <;>
    simp [streamRead, initStream, backendMidFail, getMoreUntilDone, List.length_range]

/-- C8: a pull arriving while the reading guard is set is a no-op (no fetch,
no push, state unchanged), and page requests are single-flight: a run of the
loop issues at most one fetch more than the responses it received — only the
final, still-unanswered request can be outstanding. -/
theorem C8_pull_noop_single_flight :
    (∀ (st : StreamState) (backend : List FetchResult), st.reading = true →
      streamRead st backend
        = { fetches := 0, pushed := [], counters := [], result := RunResult.noop,
            final := st }) ∧
    (∀ (st : StreamState) (backend : List FetchResult),
      (getMoreUntilDone st backend).fetches ≤ backend.length + 1) := by
  constructor
  · intro st backend h
    simp [streamRead, h]
  · intro st backend
    exact getMore_fetches_le backend st

/-- C8 witness: a pull on an instance whose guard is set does nothing. -/
theorem C8_pull_noop_single_flight_witness :
    streamRead { reading := true, counter := 7, cursorMark := "c" } backend0
      = { fetches := 0, pushed := [], counters := [], result := RunResult.noop,
          final := { reading := true, counter := 7, cursorMark := "c" } } :=
  C8_pull_noop_single_flight.1 { reading := true, counter := 7, cursorMark := "c" } backend0 rfl

theorem getOpt_setOpt_self (m : OptMap) (k : String) (v : JVal) :
    getOpt (setOpt m k v) k = some v := by
  induction m with
  | nil => simp [setOpt, getOpt]
  | cons hd tl ih =>
      obtain ⟨k', v'⟩ := hd
      by_cases h : k' = k
      · simp [setOpt, getOpt, h]
      · simp [setOpt, getOpt, h, ih]

theorem getOpt_setOpt_ne (m : OptMap) (k k' : String) (v : JVal) (h : k' ≠ k) :
    getOpt (setOpt m k v) k' = getOpt m k' := by
  induction m with
  | nil => simp [setOpt, getOpt, Ne.symm h]
  | cons hd tl ih =>
      obtain ⟨k'', v''⟩ := hd
      by_cases h2 : k'' = k
      · subst h2
        simp [setOpt, getOpt, Ne.symm h]
      · by_cases h3 : k'' = k'
        · simp [setOpt, getOpt, h2, h3, h]
        · simp [setOpt, getOpt, h2, h3, ih]

theorem getOpt_delOpt_self (m : OptMap) (k : String) :
    getOpt (delOpt m k) k = none := by
  induction m with
  | nil => simp [delOpt, getOpt]
  | cons hd tl ih =>
      obtain ⟨k', v'⟩ := hd
      by_cases h : k' = k
      · simp [delOpt, h, ih]
      · simp [delOpt, getOpt, h, ih]

theorem getOpt_delOpt_ne (m : OptMap) (k k' : String) (h : k' ≠ k) :
    getOpt (delOpt m k) k' = getOpt m k' := by
  induction m with
  | nil => simp [delOpt]
  | cons hd tl ih =>
      obtain ⟨k'', v''⟩ := hd
      by_cases h2 : k'' = k
      · subst h2
        simp [delOpt, getOpt, Ne.symm h, ih]
      · by_cases h3 : k'' = k'
        · simp [delOpt, getOpt, h2, h3, h]
        · simp [delOpt, getOpt, h2, h3, ih]

theorem truthy_of_getProp_arr (v : JVal) (k : String) (ds : List JVal)
    (h : getProp v k = JVal.arr ds) : truthy v = true := by
  cases v <;> simp [getProp, truthy] at h ⊢

/-- C7: findOne forces rows = 1 into the request options, and its result
handling reports the unexpected-result error whenever the response carries
zero documents or more than one document — never a silent empty success —
while a response with exactly one document yields that document. -/
theorem C7_findOne_exactly_one :
    (∀ o : OptMap, getOpt (findOnePrepOptions o) "rows" = some (JVal.num 1)) ∧
    (∀ (result : JVal) (docs : List JVal),
      getProp (getProp result "response") "docs" = JVal.arr docs →
      (docs.length ≠ 1 → findOneHandle result
          = Except.error "unexpected result, documents not found") ∧
      (∀ d, docs = [d] → findOneHandle result = Except.ok d)) := by
  constructor
  · intro o
    simp [findOnePrepOptions, getOpt_setOpt_self]
  · intro result docs h
    have ht : truthy (getProp result "response") = true := truthy_of_getProp_arr _ _ _ h
    constructor
    · intro hlen
      simp [findOneHandle, ht, h, hlen]
    · intro d hd
      subst hd
      simp [findOneHandle, ht, h]

/-- C7 witness: a well-shaped response with exactly one document succeeds
with that document, and rows is forced to 1 on an empty options object. -/
theorem C7_findOne_exactly_one_witness :
    findOneHandle (JVal.obj [("response",
        JVal.obj [("docs", JVal.arr [JVal.num 7]), ("numFound", JVal.num 1)])])
      = Except.ok (JVal.num 7) :=
  (C7_findOne_exactly_one.2
    (JVal.obj [("response",
        JVal.obj [("docs", JVal.arr [JVal.num 7]), ("numFound", JVal.num 1)])])
    [JVal.num 7] rfl).2 (JVal.num 7) rfl

/-- C10: each public operation mutates the caller's options object in place.
findOne sets rows = 1 on it; query removes the proxy key (capturing its
value for the transport), renames a truthy fields value to fl and removes
fields, and joins an array-valued fl into a comma-separated string; the
Stream constructor stores the passed object and overwrites its sort,
cursorMark and rows properties with 'docid asc', '*' and 1000 regardless of
any caller-supplied values. -/
theorem C10_options_mutated_in_place :
    (∀ o : OptMap, getOpt (findOnePrepOptions o) "rows" = some (JVal.num 1)) ∧
    (∀ (o : OptMap) (pv : JVal) (xs : List JVal),
      getOpt o "proxy" = some pv →
      getOpt o "fields" = some (JVal.arr xs) →
      getOpt (queryPrepOptions o).1 "proxy" = none ∧
      getOpt (queryPrepOptions o).1 "fields" = none ∧
      getOpt (queryPrepOptions o).1 "fl" = some (JVal.str (joinElems xs)) ∧
      (queryPrepOptions o).2 = some pv) ∧
    (∀ o : OptMap,
      getOpt (streamParams o) "sort" = some (JVal.str "docid asc") ∧
      getOpt (streamParams o) "cursorMark" = some (JVal.str "*") ∧
      getOpt (streamParams o) "rows" = some (JVal.num 1000)) := by
  refine ⟨?_, ?_, ?_⟩
  · intro o
    simp [findOnePrepOptions, getOpt_setOpt_self]
  · intro o pv xs hp hf
    have hf1 : getOpt (delOpt o "proxy") "fields" = some (JVal.arr xs) := by
      rw [getOpt_delOpt_ne _ _ _ (by decide), hf]
    have hfl2 : getOpt (delOpt (setOpt (delOpt o "proxy") "fl" (JVal.arr xs)) "fields") "fl"
        = some (JVal.arr xs) := by
      rw [getOpt_delOpt_ne _ _ _ (by decide), getOpt_setOpt_self]
    refine ⟨?_, ?_, ?_, ?_⟩ <;>
      simp [queryPrepOptions, hp, hf1, hfl2, truthy, getOpt_setOpt_self,
        getOpt_setOpt_ne _ _ _ _ (by decide : ("proxy" : String) ≠ "fl"),
        getOpt_setOpt_ne _ _ _ _ (by decide : ("fields" : String) ≠ "fl"),
        getOpt_delOpt_self,
        getOpt_delOpt_ne _ _ _ (by decide : ("proxy" : String) ≠ "fields"),
        getOpt_delOpt_ne _ _ _ (by decide : ("fl" : String) ≠ "proxy"),
        getOpt_delOpt_ne _ _ _ (by decide : ("fl" : String) ≠ "fields")]
  · intro o
    refine ⟨?_, ?_, ?_⟩ <;>
      simp [streamParams, getOpt_setOpt_self,
        getOpt_setOpt_ne _ _ _ _ (by decide : ("sort" : String) ≠ "rows"),
        getOpt_setOpt_ne _ _ _ _ (by decide : ("sort" : String) ≠ "cursorMark"),
        getOpt_setOpt_ne _ _ _ _ (by decide : ("cursorMark" : String) ≠ "rows")]

/-- C10 witness: a concrete options object carrying proxy, fields and rows
is rewritten as described. -/
theorem C10_options_mutated_in_place_witness :
    getOpt (queryPrepOptions
        [("proxy", JVal.str "p"), ("fields", JVal.arr [JVal.str "f1", JVal.str "f2"]),
         ("rows", JVal.num 5)]).1 "proxy" = none ∧
    getOpt (queryPrepOptions
        [("proxy", JVal.str "p"), ("fields", JVal.arr [JVal.str "f1", JVal.str "f2"]),
         ("rows", JVal.num 5)]).1 "fields" = none ∧
    getOpt (queryPrepOptions
        [("proxy", JVal.str "p"), ("fields", JVal.arr [JVal.str "f1", JVal.str "f2"]),
         ("rows", JVal.num 5)]).1 "fl" = some (JVal.str "f1,f2") ∧
    (queryPrepOptions
        [("proxy", JVal.str "p"), ("fields", JVal.arr [JVal.str "f1", JVal.str "f2"]),
         ("rows", JVal.num 5)]).2 = some (JVal.str "p") :=
  C10_options_mutated_in_place.2.1
    [("proxy", JVal.str "p"), ("fields", JVal.arr [JVal.str "f1", JVal.str "f2"]),
     ("rows", JVal.num 5)]
    (JVal.str "p") [JVal.str "f1", JVal.str "f2"] rfl rfl

theorem entryContrib_snd_none (k : String) (v : JVal) (hk : k ≠ "$not") :
    ∀ ps ng, entryContrib k v = Except.ok (ps, ng) → ng = none := by
  intro ps ng hc
  unfold entryContrib at hc
  by_cases h1 : k = "$or"
  · rw [if_pos h1] at hc
    cases hbq : buildQuery v "OR" with
    | error e => simp [hbq] at hc
    | ok sub => simp [hbq] at hc; exact hc.2.symm
  · by_cases h2 : k = "$and"
    · rw [if_neg h1, if_pos h2] at hc
      cases hbq : buildQuery v "AND" with
      | error e => simp [hbq] at hc
      | ok sub => simp [hbq] at hc; exact hc.2.symm
    · rw [if_neg h1, if_neg h2, if_neg hk] at hc
      cases hts : jToString v with
      | error e => simp [hts] at hc
      | ok s => simp [hts] at hc; exact hc.2.symm

theorem buildObjParts_perm {l₁ l₂ : List (String × JVal)} (hperm : l₁.Perm l₂)
    (hnd : (l₁.map Prod.fst).Nodup) :
    ∀ ps ng, buildObjParts l₁ = Except.ok (ps, ng) →
      ∃ ps', buildObjParts l₂ = Except.ok (ps', ng) ∧ ps.Perm ps' := by
  induction hperm with
  | nil =>
      intro ps ng h
      exact ⟨ps, h, List.Perm.refl ps⟩
  | cons x hp ih =>
      rename_i la lb
      intro ps ng hok
      obtain ⟨k, v⟩ := x
      rw [buildObjParts_cons] at hok
      cases hc : entryContrib k v with
      | error e => rw [hc, exSeq_error] at hok; exact Except.noConfusion hok
      | ok c =>
          rw [hc, exSeq_ok] at hok
          cases hr : buildObjParts la with
          | error e => rw [hr, exSeq_error] at hok; exact Except.noConfusion hok
          | ok r =>
              rw [hr, exSeq_ok] at hok
              injection hok with h
              rw [Prod.mk.injEq] at h
              obtain ⟨hps, hng⟩ := h
              have hnd' : (la.map Prod.fst).Nodup := by
                simp only [List.map_cons, List.nodup_cons] at hnd
                exact hnd.2
              obtain ⟨ps', hobj', hperm'⟩ := ih hnd' r.1 r.2 (by rw [hr])
              refine ⟨c.1 ++ ps', ?_, ?_⟩
              · rw [buildObjParts_cons, hc, exSeq_ok, hobj', exSeq_ok, hng]
              · rw [← hps]
                exact hperm'.append_left c.1
  | swap x y l =>
      intro ps ng hok
      obtain ⟨kx, vx⟩ := x
      obtain ⟨ky, vy⟩ := y
      have hkxy : ky ≠ kx := by
        simp only [List.map_cons, List.nodup_cons, List.mem_cons] at hnd
        intro hcon
        exact hnd.1 (Or.inl hcon)
      rw [buildObjParts_cons] at hok
      cases hcy : entryContrib ky vy with
      | error e => rw [hcy, exSeq_error] at hok; exact Except.noConfusion hok
      | ok cy =>
          rw [hcy, exSeq_ok] at hok
          rw [buildObjParts_cons] at hok
          cases hcx : entryContrib kx vx with
          | error e => rw [hcx, exSeq_error] at hok; exact Except.noConfusion hok
          | ok cx =>
              rw [hcx, exSeq_ok] at hok
              cases hr : buildObjParts l with
              | error e => rw [hr, exSeq_error] at hok; exact Except.noConfusion hok
              | ok r =>
                  rw [hr, exSeq_ok, exSeq_ok] at hok
                  injection hok with h
                  rw [Prod.mk.injEq] at h
                  obtain ⟨hps, hng⟩ := h
                  have hxy : cx.2 = none ∨ cy.2 = none := by
                    by_cases hx : kx = "$not"
                    · right
                      have hy : ky ≠ "$not" := by rw [hx] at hkxy; exact hkxy
                      exact entryContrib_snd_none ky vy hy cy.1 cy.2 (by rw [hcy])
                    · left
                      exact entryContrib_snd_none kx vx hx cx.1 cx.2 (by rw [hcx])
                  have hor : Option.or (Option.or r.2 cy.2) cx.2
                      = Option.or (Option.or r.2 cx.2) cy.2 := by
                    rcases hxy with h0 | h0 <;> rw [h0] <;>
                      simp [Option.or_none, Option.none_or]
                  refine ⟨cx.1 ++ (cy.1 ++ r.1), ?_, ?_⟩
                  · rw [buildObjParts_cons, hcx, exSeq_ok, buildObjParts_cons, hcy,
                      exSeq_ok, hr, exSeq_ok, exSeq_ok, hor, hng]
                  · rw [← hps]
                    have hcomm : ((cy.1 ++ cx.1) ++ r.1).Perm ((cx.1 ++ cy.1) ++ r.1) :=
                      List.perm_append_comm.append_right r.1
                    simpa [List.append_assoc] using hcomm
  | trans hp1 hp2 ih1 ih2 =>
      intro ps ng hok
      obtain ⟨ps', h', hperm'⟩ := ih1 hnd ps ng hok
      have hnd2 := ((hp1.map Prod.fst).nodup_iff).mp hnd
      obtain ⟨ps'', h'', hperm''⟩ := ih2 hnd2 ps' ng h'
      exact ⟨ps'', h'', hperm'.trans hperm''⟩

/-- C9: reordering a mapping's own keys (a permutation of its entries, keys
being unique as in a JavaScript object) never changes the set of terms
collected nor the negation clause of the compiled output — the new parts
list is a permutation of the old and the negation clause is identical — so
key iteration order only affects the left-to-right textual order. -/
theorem C9_reorder_keys (l₁ l₂ : List (String × JVal)) (hperm : l₁.Perm l₂)
    (hnd : (l₁.map Prod.fst).Nodup) (ps : List String) (ng : Option String)
    (h : buildObjParts l₁ = Except.ok (ps, ng)) :
    ∃ ps', buildObjParts l₂ = Except.ok (ps', ng) ∧ ps.Perm ps' :=
  buildObjParts_perm hperm hnd ps ng h

/-- C9 witness: swapping the two keys of a two-field mapping permutes its
terms and keeps the (absent) negation clause. -/
theorem C9_reorder_keys_witness :
    ∃ ps', buildObjParts [("b", JVal.num 2), ("a", JVal.num 1)] = Except.ok (ps', none)
      ∧ List.Perm ["a:1", "b:2"] ps' :=
  C9_reorder_keys [("a", JVal.num 1), ("b", JVal.num 2)]
    [("b", JVal.num 2), ("a", JVal.num 1)]
    (List.Perm.swap ("b", JVal.num 2) ("a", JVal.num 1) [])
    (by decide) ["a:1", "b:2"] none rfl
